import Mathlib

/-!
Verification of the PySpark pipeline in `Notebook.py` (Databricks Primer).

The notebook builds a handful of small Spark DataFrames from hand-written
data and applies built-in DataFrame methods: `withColumn`, `select`,
`union`, a left `join` on `ID`, `filter`, `substring`, `groupBy`/`agg`
with `F.sum`, and window functions (`F.sum` over a partition, `F.rank`
over an ordering).  We embed a DataFrame as a list of column names
together with rows of optional cells (a `none` cell is a SQL NULL), give
each operation used by the notebook its Spark semantics on that model,
and then define every `sdf_*` value of the notebook by the very pipeline
the source writes down.
-/

namespace Primer

/-- A Spark value appearing in the notebook: an integer or a string. -/
inductive Val where
  | int (n : Int)
  | str (s : String)
deriving DecidableEq, Repr

/-- A cell of a DataFrame; `none` is SQL NULL. -/
abbrev Cell := Option Val

/-- A DataFrame: a schema (list of column names) and rows of cells. -/
structure DataFrame where
  cols : List String
  rows : List (List Cell)
deriving DecidableEq, Repr

/-- Look a cell up in a row by column name (NULL if the column is absent). -/
def rowCell (cols : List String) (r : List Cell) (c : String) : Cell :=
  match cols.findIdx? (fun x => x == c) with
  | some i => r.getD i none
  | none => none

/-- Column expressions used by the notebook: `F.col`, `F.lit`,
`F.concat` (binary; Spark concat is associative and NULL-strict) and
`F.substring` (1-based position, as in Spark). -/
inductive ColExpr where
  | col (c : String)
  | lit (v : Val)
  | concat (a b : ColExpr)
  | substring (c : String) (pos len : Nat)
deriving Repr

/-- Evaluate a column expression on one row.  `concat` returns NULL when
an operand is NULL; `substring` takes `len` characters starting at the
1-based position `pos`. -/
def evalExpr (cols : List String) (r : List Cell) : ColExpr → Cell
  | .col c => rowCell cols r c
  | .lit v => some v
  | .concat a b =>
      match evalExpr cols r a, evalExpr cols r b with
      | some (.str s1), some (.str s2) => some (.str (s1 ++ s2))
      | _, _ => none
  | .substring c pos len =>
      match rowCell cols r c with
      | some (.str s) => some (.str (String.mk ((s.toList.drop (pos - 1)).take len)))
      | _ => none

/-- Filter conditions used by the notebook: `isNotNull`, `!=` against a
literal and `=` against a literal.  As in Spark, a comparison whose
column is NULL is not satisfied. -/
inductive Pred where
  | isNotNull (c : String)
  | neLit (c : String) (v : Val)
  | eqLit (c : String) (v : Val)
deriving Repr

/-- Evaluate a filter condition on one row. -/
def evalPred (cols : List String) (r : List Cell) : Pred → Bool
  | .isNotNull c => (rowCell cols r c).isSome
  | .neLit c v =>
      match rowCell cols r c with
      | some w => w != v
      | none => false
  | .eqLit c v =>
      match rowCell cols r c with
      | some w => w == v
      | none => false

/-- `spark.createDataFrame(data, col_names)`. -/
def createDataFrame (data : List (List Cell)) (cols : List String) : DataFrame :=
  { cols := cols, rows := data }

/-- `.select(...)`: each item is an expression with an output name
(`F.col("x")` keeps the name `x`; `.alias` renames). -/
def DataFrame.select (df : DataFrame) (items : List (ColExpr × String)) : DataFrame :=
  { cols := items.map (fun it => it.2),
    rows := df.rows.map (fun r => items.map (fun it => evalExpr df.cols r it.1)) }

/-- `.filter(p)`: keep the rows satisfying the condition. -/
def DataFrame.filter (df : DataFrame) (p : Pred) : DataFrame :=
  { cols := df.cols, rows := df.rows.filter (fun r => evalPred df.cols r p) }

/-- `.withColumn(name, e)`: replace the column when it exists, otherwise
append it at the end of the schema. -/
def DataFrame.withColumn (df : DataFrame) (name : String) (e : ColExpr) : DataFrame :=
  match df.cols.findIdx? (fun x => x == name) with
  | some i =>
      { cols := df.cols,
        rows := df.rows.map (fun r => r.set i (evalExpr df.cols r e)) }
  | none =>
      { cols := df.cols ++ [name],
        rows := df.rows.map (fun r => r ++ [evalExpr df.cols r e]) }

/-- `.drop(name)`: remove the named column. -/
def DataFrame.drop (df : DataFrame) (name : String) : DataFrame :=
  { cols := df.cols.filter (fun c => c != name),
    rows := df.rows.map (fun r =>
      ((df.cols.zip r).filter (fun p => p.1 != name)).map (fun p => p.2)) }

/-- `.union(other)`: positional union, keeping the left schema. -/
def DataFrame.union (df other : DataFrame) : DataFrame :=
  { cols := df.cols, rows := df.rows ++ other.rows }

/-- `.join(other, on = key, how = "left")`: the key column first, then
the remaining left columns, then the remaining right columns; a left row
with no match (NULL keys match nothing) is kept with NULLs on the right. -/
def DataFrame.joinLeft (df other : DataFrame) (key : String) : DataFrame :=
  let lrest := df.cols.erase key
  let rrest := other.cols.erase key
  { cols := key :: lrest ++ rrest,
    rows := df.rows.flatMap (fun lr =>
      let k := rowCell df.cols lr key
      let ms := other.rows.filter (fun rr => k.isSome && (rowCell other.cols rr key == k))
      let leftPart := k :: lrest.map (rowCell df.cols lr)
      if ms.isEmpty then [leftPart ++ rrest.map (fun _ => none)]
      else ms.map (fun rr => leftPart ++ rrest.map (rowCell other.cols rr))) }

/-- Sum of the non-NULL integer cells; NULL when there is none (the
semantics of `F.sum` over a group). -/
def sumCells (cs : List Cell) : Cell :=
  let ints := cs.filterMap (fun c =>
    match c with
    | some (.int n) => some n
    | _ => none)
  if ints.isEmpty then none else some (.int (ints.foldl (fun a b => a + b) 0))

/-- `.groupBy(key).agg(F.sum(sumCol).alias(out))`: one row per distinct
key value (in order of first appearance), carrying the group sum. -/
def DataFrame.groupSum (df : DataFrame) (key sumCol out : String) : DataFrame :=
  let keys := (df.rows.map (fun r => rowCell df.cols r key)).eraseDups
  { cols := [key, out],
    rows := keys.map (fun k =>
      [k, sumCells ((df.rows.filter (fun r => rowCell df.cols r key == k)).map
            (fun r => rowCell df.cols r sumCol))]) }

/-- `.withColumn(newCol, F.sum(sumCol).over(W.partitionBy([partCol])))`:
each row receives the sum of `sumCol` over all rows sharing its
`partCol` value. -/
def DataFrame.withColumnSumOver (df : DataFrame) (newCol partCol sumCol : String) : DataFrame :=
  { cols := df.cols ++ [newCol],
    rows := df.rows.map (fun r =>
      r ++ [sumCells ((df.rows.filter (fun r2 =>
              rowCell df.cols r2 partCol == rowCell df.cols r partCol)).map
              (fun r2 => rowCell df.cols r2 sumCol))]) }

/-- Strict lexicographic comparison of character lists. -/
def charListLt : List Char → List Char → Bool
  | [], [] => false
  | [], _ :: _ => true
  | _ :: _, [] => false
  | a :: as, b :: bs => if a < b then true else if b < a then false else charListLt as bs

/-- Spark ordering on cells, ascending with NULLs first: integers by the
integer order and strings lexicographically (code points). -/
def cellLt : Cell → Cell → Bool
  | none, none => false
  | none, some _ => true
  | some _, none => false
  | some (.int a), some (.int b) => decide (a < b)
  | some (.str a), some (.str b) => charListLt a.toList b.toList
  | some (.int _), some (.str _) => true
  | some (.str _), some (.int _) => false

/-- `.withColumn(newCol, F.rank().over(W.partitionBy(partCols).orderBy(orderCol)))`:
the rank of a row is one plus the number of rows of its partition whose
ordering key is strictly smaller (ties share a rank).  `partCols = []`
is `W.orderBy(orderCol)` alone. -/
def DataFrame.withColumnRankOver (df : DataFrame) (newCol : String)
    (partCols : List String) (orderCol : String) : DataFrame :=
  { cols := df.cols ++ [newCol],
    rows := df.rows.map (fun r =>
      let samePart := df.rows.filter (fun r2 =>
        partCols.all (fun c => rowCell df.cols r2 c == rowCell df.cols r c))
      let cnt := (samePart.filter (fun r2 =>
        cellLt (rowCell df.cols r2 orderCol) (rowCell df.cols r orderCol))).length
      r ++ [some (.int (cnt + 1))]) }

/-- Shorthand for an integer cell. -/
def iv (n : Int) : Cell := some (.int n)

/-- Shorthand for a string cell. -/
def sv (s : String) : Cell := some (.str s)

/-- The hand-written example data (`l_avengers_data` in the notebook). -/
def l_avengers_data : List (List Cell) :=
  [[iv 1, sv "Steve", sv "Rogers", sv "Brooklyn, NY", sv "Blue"]
  ,[iv 2, sv "Tony", sv "Stark", sv "Manahattan, NY", sv "Gold"]
  ,[iv 3, sv "Peter", sv "Parker", sv "Queens, NY", sv "Blue"]
  ,[iv 4, sv "Scott", sv "Lang", sv "Coral Gables, FL", sv "Blue"]
  ,[iv 5, sv "Natasha", sv "Romanoff", sv "Stalingrad, USSR", sv "Black"]
  ,[iv 6, sv "Clint", sv "Barton", sv "Waverly, IA", sv "Purple"]]

/-- `l_avengers_col_names` in the notebook. -/
def l_avengers_col_names : List String :=
  ["ID", "FirstName", "LastName", "Hometown", "Favorite Color"]

/-- `sdf_avengers = spark.createDataFrame(l_avengers_data, l_avengers_col_names)`. -/
def sdf_avengers : DataFrame := createDataFrame l_avengers_data l_avengers_col_names

/-- `sdf_avengers_names`: add `FullName = concat(FirstName, " ", LastName)`
and select `ID`, `FullName`. -/
def sdf_avengers_names : DataFrame :=
  (sdf_avengers.withColumn "FullName"
      (.concat (.concat (.col "FirstName") (.lit (.str " "))) (.col "LastName"))).select
    [(.col "ID", "ID"), (.col "FullName", "FullName")]

/-- `l_hero_data` in the notebook. -/
def l_hero_data : List (List Cell) :=
  [[iv 1, sv "Captain America"]
  ,[iv 2, sv "Iron Man"]
  ,[iv 3, sv "Spiderman"]
  ,[iv 4, sv "Ant-Man"]
  ,[iv 5, sv "Black Widow"]
  ,[iv 6, sv "Hawkeye"]]

/-- `l_hero_col_names` in the notebook. -/
def l_hero_col_names : List String := ["ID", "Hero"]

/-- `sdf_avengers_heroes = spark.createDataFrame(l_hero_data, l_hero_col_names)`. -/
def sdf_avengers_heroes : DataFrame := createDataFrame l_hero_data l_hero_col_names

/-- `l_new_avenger_data` in the notebook. -/
def l_new_avenger_data : List (List Cell) :=
  [[iv 7, sv "Wanda", sv "Maximoff", sv "Sokovia", sv "Scarlet"]]

/-- `l_new_avenger_col_names = sdf_avengers.columns`. -/
def l_new_avenger_col_names : List String := sdf_avengers.cols

/-- `sdf_avengers_new = spark.createDataFrame(l_new_avenger_data, l_new_avenger_col_names)`. -/
def sdf_avengers_new : DataFrame :=
  createDataFrame l_new_avenger_data l_new_avenger_col_names

/-- `sdf_avengers_expanded = sdf_avengers.union(sdf_avengers_new).join(sdf_avengers_heroes, on = "ID", how = "left")`. -/
def sdf_avengers_expanded : DataFrame :=
  (sdf_avengers.union sdf_avengers_new).joinLeft sdf_avengers_heroes "ID"

/-- `sdf_avengers_filtered`: keep the rows with a non-NULL `Hero` and a
`Favorite Color` other than `"Gold"`, add `FirstInitial` (first character
of `FirstName`), drop `FirstName`, and select the five output columns,
renaming `Favorite Color` to `FavoriteColor`. -/
def sdf_avengers_filtered : DataFrame :=
  ((((sdf_avengers_expanded.filter (.isNotNull "Hero")).filter
        (.neLit "Favorite Color" (.str "Gold"))).withColumn "FirstInitial"
      (.substring "FirstName" 1 1)).drop "FirstName").select
    [(.col "FirstInitial", "FirstInitial"), (.col "LastName", "LastName"),
     (.col "Hometown", "Hometown"), (.col "Hero", "Hero"),
     (.col "Favorite Color", "FavoriteColor")]

/-- `sdf_avengers_weights`: every filtered row given `WeightLbs = 200`. -/
def sdf_avengers_weights : DataFrame :=
  sdf_avengers_filtered.withColumn "WeightLbs" (.lit (.int 200))

/-- `sdf_avengers_sum = sdf_avengers_weights.groupBy("FavoriteColor").agg(F.sum(F.col("WeightLbs")).alias("TotalWeightLbs"))`. -/
def sdf_avengers_sum : DataFrame :=
  sdf_avengers_weights.groupSum "FavoriteColor" "WeightLbs" "TotalWeightLbs"

/-- `sdf_avengers_partition`: the windowed sum of `WeightLbs` partitioned
by `FavoriteColor`. -/
def sdf_avengers_partition : DataFrame :=
  sdf_avengers_weights.withColumnSumOver "ColorSumWeightLbs" "FavoriteColor" "WeightLbs"

/-- `sdf_avengers_ordered`: `AlphaRank = F.rank().over(W.orderBy("LastName"))`
and `AlphaRankWithinColor = F.rank().over(W.partitionBy("FavoriteColor").orderBy("LastName"))`. -/
def sdf_avengers_ordered : DataFrame :=
  (sdf_avengers_filtered.withColumnRankOver "AlphaRank" [] "LastName").withColumnRankOver
    "AlphaRankWithinColor" ["FavoriteColor"] "LastName"

/-- `sdf_avengers.createOrReplaceTempView("sql_avengers")`: the temp view
is the same table under the SQL name. -/
def sql_avengers : DataFrame := sdf_avengers

/-- The single-line SQL cell:
`select FirstName, LastName from sql_avengers where ID = 2;`. -/
def sql_select_single_line : DataFrame :=
  (sql_avengers.filter (.eqLit "ID" (.int 2))).select
    [(.col "FirstName", "FirstName"), (.col "LastName", "LastName")]

/-- The auto-formatted SQL cell (same query written across several lines):
`select FirstName, LastName from sql_avengers where ID = 2;`. -/
def sql_select_formatted : DataFrame :=
  (sql_avengers.filter (.eqLit "ID" (.int 2))).select
    [(.col "FirstName", "FirstName"), (.col "LastName", "LastName")]

/-- First character of a string cell, as a one-character string cell. -/
def firstCharCell : Cell → Cell
  | some (.str s) => some (.str (String.mk (s.toList.take 1)))
  | _ => none

/-- The reference table of claim C1, built per the claim from
`sdf_avengers_expanded`: keep exactly the rows whose `Hero` is non-NULL
and whose `Favorite Color` is not `"Gold"`, replace `FirstName` by its
first character `FirstInitial`, and project to `FirstInitial`,
`LastName`, `Hometown`, `Hero`, `FavoriteColor`. -/
def sdf_avengers_filtered_reference : DataFrame :=
  { cols := ["FirstInitial", "LastName", "Hometown", "Hero", "FavoriteColor"],
    rows := (sdf_avengers_expanded.rows.filter (fun r =>
        (rowCell sdf_avengers_expanded.cols r "Hero").isSome &&
        !(rowCell sdf_avengers_expanded.cols r "Favorite Color" == some (.str "Gold")))).map
      (fun r =>
        [firstCharCell (rowCell sdf_avengers_expanded.cols r "FirstName"),
         rowCell sdf_avengers_expanded.cols r "LastName",
         rowCell sdf_avengers_expanded.cols r "Hometown",
         rowCell sdf_avengers_expanded.cols r "Hero",
         rowCell sdf_avengers_expanded.cols r "Favorite Color"]) }

/-- The hero name that `sdf_avengers_heroes` associates to an `ID` cell
(NULL when no hero row carries that `ID`). -/
def heroLookup (idCell : Cell) : Cell :=
  match sdf_avengers_heroes.rows.find? (fun hr =>
      rowCell sdf_avengers_heroes.cols hr "ID" == idCell) with
  | some hr => rowCell sdf_avengers_heroes.cols hr "Hero"
  | none => none

/-- The `TotalWeightLbs` that `sdf_avengers_sum` assigns to a
`FavoriteColor` cell (NULL when that color has no group row). -/
def sumLookup (colorCell : Cell) : Cell :=
  match sdf_avengers_sum.rows.find? (fun sr =>
      rowCell sdf_avengers_sum.cols sr "FavoriteColor" == colorCell) with
  | some sr => rowCell sdf_avengers_sum.cols sr "TotalWeightLbs"
  | none => none

/-- Claim C1: `sdf_avengers_filtered` equals the reference table obtained
from `sdf_avengers_expanded` by keeping exactly the rows whose `Hero` is
non-NULL and whose `Favorite Color` is not `"Gold"` — the five rows for
Rogers, Parker, Lang, Romanoff and Barton, with Stark and Maximoff
excluded — replacing `FirstName` by `FirstInitial` (the first character
of `FirstName`) and projecting to the columns `FirstInitial`, `LastName`,
`Hometown`, `Hero`, `FavoriteColor`. -/
theorem sdf_avengers_filtered_matches_reference :
    sdf_avengers_filtered = sdf_avengers_filtered_reference ∧
    sdf_avengers_filtered.rows.map
        (fun r => rowCell sdf_avengers_filtered.cols r "LastName")
      = [sv "Rogers", sv "Parker", sv "Lang", sv "Romanoff", sv "Barton"] := by
  decide

/-- Claim C2: `sdf_avengers_expanded` has exactly 7 rows, one per `ID`
1 through 7; each row's `Hero` is the name `sdf_avengers_heroes` matches
to its `ID`, so IDs 1 through 6 carry their hero names and ID 7 (Wanda
Maximoff) carries NULL. -/
theorem sdf_avengers_expanded_heroes_match :
    sdf_avengers_expanded.rows.length = 7 ∧
    sdf_avengers_expanded.rows.map
        (fun r => rowCell sdf_avengers_expanded.cols r "ID")
      = [iv 1, iv 2, iv 3, iv 4, iv 5, iv 6, iv 7] ∧
    sdf_avengers_expanded.rows.map
        (fun r => rowCell sdf_avengers_expanded.cols r "Hero")
      = sdf_avengers_expanded.rows.map
        (fun r => heroLookup (rowCell sdf_avengers_expanded.cols r "ID")) ∧
    sdf_avengers_expanded.rows.map
        (fun r => rowCell sdf_avengers_expanded.cols r "Hero")
      = [sv "Captain America", sv "Iron Man", sv "Spiderman", sv "Ant-Man",
         sv "Black Widow", sv "Hawkeye", none] := by
  decide

/-- Claim C3: on every row of `sdf_avengers_partition`, the windowed
`ColorSumWeightLbs` equals the `TotalWeightLbs` that `sdf_avengers_sum`
assigns to that row's `FavoriteColor` group. -/
theorem windowed_sum_agrees_with_grouped_sum :
    sdf_avengers_partition.rows.map
        (fun r => rowCell sdf_avengers_partition.cols r "ColorSumWeightLbs")
      = sdf_avengers_partition.rows.map
        (fun r => sumLookup (rowCell sdf_avengers_partition.cols r "FavoriteColor")) := by
  decide

/-- Claim C4: the five `LastName` values of `sdf_avengers_filtered` are
pairwise distinct, so in `sdf_avengers_ordered` the `AlphaRank` values
are exactly the integers 1 through 5, each row's rank being one plus the
number of rows whose `LastName` is strictly smaller alphabetically
(Barton 1, Lang 2, Parker 3, Rogers 4, Romanoff 5). -/
theorem alpha_rank_values :
    (sdf_avengers_filtered.rows.map
        (fun r => rowCell sdf_avengers_filtered.cols r "LastName")).Nodup ∧
    (sdf_avengers_ordered.rows.map
        (fun r => rowCell sdf_avengers_ordered.cols r "AlphaRank")).Perm
      [iv 1, iv 2, iv 3, iv 4, iv 5] ∧
    sdf_avengers_ordered.rows.map
        (fun r => rowCell sdf_avengers_ordered.cols r "AlphaRank")
      = sdf_avengers_ordered.rows.map (fun r =>
          iv ((sdf_avengers_filtered.rows.filter (fun r2 =>
                cellLt (rowCell sdf_avengers_filtered.cols r2 "LastName")
                  (rowCell sdf_avengers_ordered.cols r "LastName"))).length + 1)) ∧
    sdf_avengers_ordered.rows.map (fun r =>
        (rowCell sdf_avengers_ordered.cols r "LastName",
         rowCell sdf_avengers_ordered.cols r "AlphaRank"))
      = [(sv "Rogers", iv 4), (sv "Parker", iv 3), (sv "Lang", iv 2),
         (sv "Romanoff", iv 5), (sv "Barton", iv 1)] := by
  decide

/-- Claim C5: `sdf_avengers_sum` gives every `FavoriteColor` group a
`TotalWeightLbs` of exactly 200 times its number of rows in
`sdf_avengers_weights`; concretely 600 for Blue, 200 for Black and 200
for Purple, with no other group. -/
theorem grouped_sum_values :
    sdf_avengers_sum.cols = ["FavoriteColor", "TotalWeightLbs"] ∧
    sdf_avengers_sum.rows
      = [[sv "Blue", iv 600], [sv "Black", iv 200], [sv "Purple", iv 200]] ∧
    sdf_avengers_sum.rows.map
        (fun r => rowCell sdf_avengers_sum.cols r "TotalWeightLbs")
      = sdf_avengers_sum.rows.map (fun r =>
          iv (200 * ((sdf_avengers_weights.rows.filter (fun r2 =>
                rowCell sdf_avengers_weights.cols r2 "FavoriteColor"
                  == rowCell sdf_avengers_sum.cols r "FavoriteColor")).length : Int))) := by
  decide

/-- Claim C6: `sdf_avengers_names` has exactly the columns `ID` and
`FullName`, one row per row of `sdf_avengers` (6 rows), and each row's
`FullName` is that row's `FirstName`, a single space, then `LastName`. -/
theorem sdf_avengers_names_full_names :
    sdf_avengers_names.cols = ["ID", "FullName"] ∧
    sdf_avengers_names.rows.length = 6 ∧
    sdf_avengers_names.rows = sdf_avengers.rows.map (fun r =>
      [rowCell sdf_avengers.cols r "ID",
       match rowCell sdf_avengers.cols r "FirstName",
             rowCell sdf_avengers.cols r "LastName" with
       | some (.str f), some (.str l) => some (.str (f ++ " " ++ l))
       | _, _ => none]) := by
  decide

/-- Claim C7: the auto-formatted SQL query returns exactly what the
single-line query before it returns, and over the temp view
`sql_avengers` that result is the single row `("Tony", "Stark")`. -/
theorem formatted_sql_equals_single_line :
    sql_select_formatted = sql_select_single_line ∧
    sql_select_single_line
      = { cols := ["FirstName", "LastName"], rows := [[sv "Tony", sv "Stark"]] } := by
  decide

/-- Claim C8: `sdf_avengers` has exactly 6 rows, with `ID`s 1 through 6,
and exactly the 5 columns `ID`, `FirstName`, `LastName`, `Hometown`,
`Favorite Color`. -/
theorem sdf_avengers_shape :
    sdf_avengers.rows.length = 6 ∧
    sdf_avengers.cols = ["ID", "FirstName", "LastName", "Hometown", "Favorite Color"] ∧
    sdf_avengers.rows.map (fun r => rowCell sdf_avengers.cols r "ID")
      = [iv 1, iv 2, iv 3, iv 4, iv 5, iv 6] := by
  decide

/-- Claim C9: `l_new_avenger_col_names` is taken from
`sdf_avengers.columns`, so `sdf_avengers_new` has the same column names
in the same order as `sdf_avengers`; the positional union therefore
keeps the left schema, concatenates the rows, and reading the appended
new-avenger row by any column name under the union schema gives the same
cell as under the schema of `sdf_avengers_new`. -/
theorem union_columns_aligned :
    l_new_avenger_col_names = sdf_avengers.cols ∧
    sdf_avengers_new.cols = sdf_avengers.cols ∧
    (sdf_avengers.union sdf_avengers_new).cols = sdf_avengers.cols ∧
    (sdf_avengers.union sdf_avengers_new).rows
      = sdf_avengers.rows ++ sdf_avengers_new.rows ∧
    (l_avengers_col_names.all (fun c =>
        rowCell (sdf_avengers.union sdf_avengers_new).cols
            ((sdf_avengers.union sdf_avengers_new).rows.getD 6 []) c
          == rowCell sdf_avengers_new.cols (sdf_avengers_new.rows.getD 0 []) c)) = true := by
  decide

/-- Claim C10: every derived DataFrame of the notebook is a new value
built by a pure operation on its input, so `sdf_avengers` — displayed
again late in the notebook, after all the transformations — is still
exactly the DataFrame created from `l_avengers_data` and
`l_avengers_col_names`, with its original 6 rows and 5 columns. -/
theorem sdf_avengers_unchanged :
    sdf_avengers = createDataFrame l_avengers_data l_avengers_col_names ∧
    sdf_avengers.rows = l_avengers_data ∧
    sdf_avengers.cols = l_avengers_col_names ∧
    sdf_avengers.rows.length = 6 ∧
    sdf_avengers.cols.length = 5 := by
  decide

end Primer
